import Mathlib

/-!
Verification of the AIStore core against its specification.

The definitions below are a shallow embedding of the Go sources:
* `Transport.*` embeds the send side of the streaming transport
  (transport/send.go): reserved size markers, `Stream.Send`, the
  `Stream.Read` header/data emission per object, `eoObj`, `sendData`,
  the `sendLoop`/`cmplLoop` completion discipline including the
  termination-time drains, and `objDone`.
* `Target.*` embeds the targetrunner request handlers
  (`verifyProxyRedirection`, `httpobjget`, `httpobjput`, `httpobjdelete`,
  `httpobjhead`), `GetCold`, `objDelete`, and the two GFN flags.
* `MPath.*` embeds the mountpath operation skeleton of ais/fspathrgrp.go.

Machine integers are modelled as `Nat`/`Int`; I/O and channel effects are
modelled by explicit state and by result traces.
-/

namespace Transport

/-- reserved obj-size values (send.go: `lastMarker`, `tickMarker`). -/
def lastMarker : Nat := 2 ^ 63 - 1

/-- idle-tick marker: `math.MaxInt64 ^ 0xa5a5a5a5`. -/
def tickMarker : Nat := lastMarker ^^^ 0xa5a5a5a5

/-- default SQ/SCQ capacity (send.go: `burstNum = 32`). -/
def burstNum : Nat := 32

/-- object attributes carried by the wire header (send.go: `ObjectAttrs`). -/
structure ObjectAttrs where
  atime : Int := 0
  size : Nat := 0
  cksumType : String := ""
  cksumValue : String := ""
  version : String := ""
deriving DecidableEq, Repr

/-- object header (send.go: `Header`). -/
structure Header where
  bckName : String := ""
  objName : String := ""
  objAttrs : ObjectAttrs := {}
deriving DecidableEq, Repr

/-- send.go: `hdr.IsLast()`. -/
def Header.IsLast (h : Header) : Bool := h.objAttrs.size == lastMarker

/-- send.go: `hdr.IsIdleTick()`. -/
def Header.IsIdleTick (h : Header) : Bool := h.objAttrs.size == tickMarker

/-- send.go: `hdr.IsHeaderOnly()`. -/
def Header.IsHeaderOnly (h : Header) : Bool := h.objAttrs.size == 0 || h.IsLast

/-- the reader attached to an object.  `nop` is the `nopReadCloser`
substituted by `Send` for a nil reader; `bytes cs` is a real reader that
yields chunks of the given sizes and then returns `io.EOF`. -/
inductive Reader where
  | nop
  | bytes (chunks : List Nat)
deriving DecidableEq, Repr

/-- an object passed to `Send` (send.go: `Obj`).  `reader = none` models a
nil `io.ReadCloser`; `hasCallback` models a non-nil per-object `Callback`;
`prc` models the optional refcount pointer (its current value). -/
structure Obj where
  hdr : Header
  reader : Option Reader := none
  hasCallback : Bool := false
  prc : Option Int := none
deriving DecidableEq, Repr

/-- Stream.Send (send.go 306-331), the parts that shape the enqueued object:
a terminated stream rejects the send (`none` models the returned error);
otherwise a nil reader is replaced by the no-op reader (the source asserts
`hdr.IsHeaderOnly()` in that case) and the object goes to `workCh`. -/
def Stream.Send (terminated : Bool) (obj : Obj) : Option Obj :=
  if terminated then none
  else if obj.reader.isNone then some { obj with reader := some Reader.nop }
  else some obj

/-- send-side errors relevant to the claims. -/
inductive TErr where
  | shortRead (off size : Nat)
  | sizeMismatch (off size : Nat)
deriving DecidableEq, Repr

/-- error logic of `eoObj` (send.go 617-643) when called with a nil error:
a completed object whose transferred offset differs from the header size
turns into the "offset != size" error. -/
def eoObjErr (off size : Nat) : Option TErr :=
  if off ≠ size then some (TErr.sizeMismatch off size) else none

/-- wire frames emitted by `Stream.Read`. -/
inductive Frame where
  | header (h : Header)
  | data (n : Nat)
deriving DecidableEq, Repr

/-- how one object's transmission ends. -/
inductive ObjOutcome where
  | done (err : Option TErr)
  | readErr (e : TErr)
  | lastEOF
  | stuck
deriving DecidableEq, Repr

/-- `Stream.sendData` (send.go 592-611) iterated over the reader's chunks:
each chunk advances `sendoff.off`; on `io.EOF` with `off < size` the read
fails with the short-read error (no completion is posted there); once
`off >= size` (or at EOF with `off >= size`) `eoObj` fires. -/
def sendDataLoop (size : Nat) (chunks : List Nat) (off : Nat) :
    List Frame × ObjOutcome :=
  match chunks with
  | [] =>
    if off < size then ([], ObjOutcome.readErr (TErr.shortRead off size))
    else ([], ObjOutcome.done (eoObjErr off size))
  | c :: rest =>
    if size ≤ off + c then
      ([Frame.data c], ObjOutcome.done (eoObjErr (off + c) size))
    else
      let p := sendDataLoop size rest (off + c)
      (Frame.data c :: p.1, p.2)

/-- one real object's trip through `Stream.Read` (send.go 520-556): the
header frame is emitted first; then, unless the header is header-only, the
data goes out via `sendData`; a header-only non-last object goes straight
to `eoObj(nil)`; the last-marker returns `io.EOF`.  `stuck` is the
(unreachable for objects produced by `Send`) case of a non-header-only
object without a byte reader: the no-op reader never delivers `io.EOF`. -/
def processObj (o : Obj) : List Frame × ObjOutcome :=
  if o.hdr.IsHeaderOnly then
    if o.hdr.IsLast then ([Frame.header o.hdr], ObjOutcome.lastEOF)
    else ([Frame.header o.hdr], ObjOutcome.done (eoObjErr 0 o.hdr.objAttrs.size))
  else
    match o.reader with
    | some (Reader.bytes cs) =>
      let p := sendDataLoop o.hdr.objAttrs.size cs 0
      (Frame.header o.hdr :: p.1, p.2)
    | _ => ([Frame.header o.hdr], ObjOutcome.stuck)

/-- well-formedness of an enqueued object: header-only, or carrying a real
byte reader (what `Send` guarantees for every user object). -/
def Obj.wfb (o : Obj) : Bool :=
  o.hdr.IsHeaderOnly ||
    (match o.reader with
     | some (Reader.bytes _) => true
     | _ => false)

/-- an object whose transmission completes without a read error. -/
def Obj.sendOk (o : Obj) : Bool :=
  match (processObj o).2 with
  | ObjOutcome.readErr _ => false
  | _ => true

/-- a user object: not one of the two reserved in-band control sizes
(`Fin`'s last-marker and the collector's idle tick). -/
def Obj.user (o : Obj) : Bool := !o.hdr.IsLast && !o.hdr.IsIdleTick

/-- refcount value seen by `objDone` after its decrement (`obj.prc.Dec()`;
a missing refcount behaves as zero). -/
def rcAfterDec (x : Obj) : Int :=
  match x.prc with
  | some n => n - 1
  | none => 0

/-- a send completion (send.go: `cmpl`), as posted to SCQ / delivered to
`objDone`. -/
structure Cmpl where
  obj : Obj
  err : Option TErr
deriving DecidableEq, Repr

/-- observable result of running the stream over the objects enqueued on
SQ: the wire frames of the session, the entries posted to `cmplCh` (SCQ)
for real objects, and the order in which `objDone` is invoked. -/
structure RunResult where
  frames : List Frame
  scq : List Cmpl
  deliveries : List Cmpl
deriving DecidableEq, Repr

/-- the sendLoop/cmplLoop pipeline over a queue of real user objects
(send.go 399-452).  A completed object's `cmpl` goes to `cmplCh` and is
delivered by `cmplLoop` via `objDone`, in queue order.  A read error makes
`doRequest` fail: `sendLoop` records the error, terminates, then (after the
SCQ drains) invokes `objDone` directly on the interrupted in-flight object
and on every object still pending in `workCh`, with the recorded error -
those completions never appear on `cmplCh`. -/
def runQueue : List Obj → RunResult
  | [] => ⟨[], [], []⟩
  | o :: rest =>
    match processObj o with
    | (fs, ObjOutcome.done e) =>
      let r := runQueue rest
      ⟨fs ++ r.frames, ⟨o, e⟩ :: r.scq, ⟨o, e⟩ :: r.deliveries⟩
    | (fs, ObjOutcome.readErr e) =>
      ⟨fs, [], ⟨o, some e⟩ :: rest.map (fun x => ⟨x, some e⟩)⟩
    | (fs, ObjOutcome.lastEOF) => ⟨fs, [], []⟩
    | (fs, ObjOutcome.stuck) => ⟨fs, [], []⟩

/-- events produced by one `objDone` invocation. -/
inductive Event where
  | objCallback
  | streamCallback
  | closeReader
deriving DecidableEq, Repr

/-- `Stream.objDone` (send.go 455-472): decrement the optional refcount;
when it reaches zero invoke the per-object callback if set, else the
per-stream callback if set; always close the reader afterwards. -/
def objDoneEvents (streamHasCallback : Bool) (o : Obj) : List Event :=
  let rc : Int := match o.prc with | some n => n - 1 | none => 0
  (if rc = 0 then
    (if o.hasCallback then [Event.objCallback]
     else if streamHasCallback then [Event.streamCallback]
     else [])
   else []) ++ [Event.closeReader]

/-- how a receive session ends. -/
inductive RecvEnd where
  | clean
  | corrupt
deriving DecidableEq, Repr

/-- Modelled from the spec: the receive-side iterator (spec section 4.3.2)
is not under src/ (only its use in `dryrun` is).  Per the spec it reads a
header, then the announced number of body bytes, repeatedly; a last-marker
cleanly ends the iteration, and a body that ends early (truncated stream)
or mid-frame aborts with ProtocolCorrupt.  `expect = some k` means `k`
body bytes of the current object are still owed. -/
def recv (expect : Option Nat) (fs : List Frame) : RecvEnd :=
  match expect, fs with
  | none, [] => RecvEnd.corrupt
  | none, Frame.header h :: rest =>
    if h.IsLast then RecvEnd.clean
    else if h.objAttrs.size = 0 then recv none rest
    else recv (some h.objAttrs.size) rest
  | none, Frame.data _ :: _ => RecvEnd.corrupt
  | some _, [] => RecvEnd.corrupt
  | some k, Frame.data n :: rest =>
    if k ≤ n then recv none rest else recv (some (k - n)) rest
  | some _, Frame.header _ :: _ => RecvEnd.corrupt

/-- decimal digit value, as used by `strconv.ParseInt`. -/
def digitVal (c : Char) : Option Nat :=
  if c.isDigit then some (c.toNat - 48) else none

/-- parse a non-empty all-digit run, most significant first. -/
def parseDigits : List Char → Option Nat
  | [] => none
  | cs =>
    cs.foldl
      (fun acc c =>
        match acc, digitVal c with
        | some n, some d => some (n * 10 + d)
        | _, _ => none)
      (some 0)

/-- `strconv.ParseInt(s, 10, 0)` on a 64-bit platform: optional sign, then
decimal digits, result must fit in int64; `none` models a parse error. -/
def goParseInt64 (s : String) : Option Int :=
  let p : Bool × List Char :=
    match s.toList with
    | '-' :: rest => (true, rest)
    | '+' :: rest => (false, rest)
    | rest => (false, rest)
  match parseDigits p.2 with
  | none => none
  | some n =>
    if p.1 then (if n ≤ 2 ^ 63 then some (-(n : Int)) else none)
    else (if n ≤ 2 ^ 63 - 1 then some (n : Int) else none)

/-- the SQ/SCQ capacities chosen by `NewStream`. -/
structure StreamQueues where
  workChCap : Int
  cmplChCap : Int
deriving DecidableEq, Repr

/-- burst-size computation in `NewStream` (send.go 242-254): read the
`AIS_STREAM_BURST_NUM` environment variable (`getenv` returns `""` for an
unset variable, as `os.Getenv` does); an unset variable or a parse failure
falls back to `burstNum`; a parsed value is used as is. -/
def streamBurst (getenv : String → String) : Int :=
  let a := getenv "AIS_STREAM_BURST_NUM"
  if a = "" then (burstNum : Int)
  else
    match goParseInt64 a with
    | none => (burstNum : Int)
    | some v => v

/-- `NewStream` creates `workCh` (SQ) and `cmplCh` (SCQ) with the same
burst capacity (send.go 253-254). -/
def newStreamQueues (getenv : String → String) : StreamQueues :=
  ⟨streamBurst getenv, streamBurst getenv⟩

/-- environment in which `STREAM_BURST_NUM` (the name the spec gives) is
set to "64" and every other variable, `AIS_STREAM_BURST_NUM` included, is
unset. -/
def envPlain : String → String :=
  fun k => if k = "STREAM_BURST_NUM" then "64" else ""

/-- environment in which `AIS_STREAM_BURST_NUM` is set to "64". -/
def envAis : String → String :=
  fun k => if k = "AIS_STREAM_BURST_NUM" then "64" else ""

end Transport

namespace Target

/-- cluster-map view: the set of known gateway (proxy) IDs; `GetProxy pid`
is non-nil iff `pid` is among them. -/
structure Smap where
  proxies : List String
deriving DecidableEq, Repr

/-- `targetrunner.verifyProxyRedirection` (send.go 1275-1288): fails when
the proxy-id query parameter is empty or names a gateway unknown to the
current Smap. -/
def verifyProxyRedirection (smap : Smap) (pid : String) : Bool :=
  if pid = "" then false
  else if smap.proxies.contains pid then true
  else false

/-- abstract object request: the proxy-id query parameter plus the outcome
of each early gate of the handler pipelines. -/
structure ObjReq where
  proxyID : String := ""
  restOk : Bool := true
  rangeOk : Bool := true
  msgOk : Bool := true
  lomInitOk : Bool := true
  allowOk : Bool := true
  oos : Bool := false
  bodyOk : Bool := true
deriving DecidableEq, Repr

/-- how an object handler responds. -/
inductive Resp where
  | earlyExit
  | redirectReject
  | oosReject
  | invalMsg
  | executed (ok : Bool)
deriving DecidableEq, Repr

/-- `targetrunner.httpobjget` (send.go 1294-1341): checkRESTItems, range
query parse, LOM init, `AllowGET`, then the GET body.  The handler never
calls `verifyProxyRedirection`. -/
def httpobjget (_ : Smap) (r : ObjReq) : Resp :=
  if !r.restOk then Resp.earlyExit
  else if !r.rangeOk then Resp.invalMsg
  else if !r.lomInitOk then Resp.invalMsg
  else if !r.allowOk then Resp.invalMsg
  else Resp.executed r.bodyOk

/-- `targetrunner.httpobjput` (send.go 1460-1498): checkRESTItems, then
`verifyProxyRedirection`, then the out-of-space check, LOM init,
`AllowPUT`, then `doPut`. -/
def httpobjput (smap : Smap) (r : ObjReq) : Resp :=
  if !r.restOk then Resp.earlyExit
  else if !(verifyProxyRedirection smap r.proxyID) then Resp.redirectReject
  else if r.oos then Resp.oosReject
  else if !r.lomInitOk then Resp.invalMsg
  else if !r.allowOk then Resp.invalMsg
  else Resp.executed r.bodyOk

/-- `targetrunner.httpobjdelete` (send.go 1563-1608): checkRESTItems, body
read/unmarshal, LOM init, `AllowDELETE`, then `objDelete`.  No proxy
redirection check. -/
def httpobjdelete (_ : Smap) (r : ObjReq) : Resp :=
  if !r.restOk then Resp.earlyExit
  else if !r.msgOk then Resp.invalMsg
  else if !r.lomInitOk then Resp.invalMsg
  else if !r.allowOk then Resp.invalMsg
  else Resp.executed r.bodyOk

/-- `targetrunner.httpobjhead` (send.go 1786-1865): checkRESTItems, LOM
init, then the HEAD body.  No proxy redirection check. -/
def httpobjhead (_ : Smap) (r : ObjReq) : Resp :=
  if !r.restOk then Resp.earlyExit
  else if !r.lomInitOk then Resp.invalMsg
  else Resp.executed r.bodyOk

/-- GET-from-neighbors deadline after a join (send.go 826:
`getFromNeighAfterJoin = time.Second * 30`), in nanoseconds. -/
def getFromNeighAfterJoin : Int := 30 * 1000000000

/-- the global GFN flag (send.go 851-854): an activation bit plus the
deadline at which lookups stop. -/
structure GlobalGFN where
  lookup : Bool
  stopDeadline : Int
deriving DecidableEq, Repr

/-- `globalGFN.activate` (send.go 911-915) at time `now` (UnixNano). -/
def GlobalGFN.activate (now : Int) : GlobalGFN :=
  ⟨true, now + getFromNeighAfterJoin⟩

/-- `globalGFN.deactivate` (send.go 917-920). -/
def GlobalGFN.deactivate (g : GlobalGFN) : GlobalGFN :=
  { g with lookup := false }

/-- `globalGFN.active` (send.go 896-909): false when not activated; when
the deadline is exceeded the flag deactivates itself and reports false;
otherwise true.  Returns the reported value and the post-call state. -/
def GlobalGFN.active (g : GlobalGFN) (now : Int) : Bool × GlobalGFN :=
  if !g.lookup then (false, g)
  else if g.stopDeadline < now then (false, g.deactivate)
  else (true, g)

/-- lock state of one object's per-LOM lock. -/
inductive LockState where
  | unlocked
  | wlock
  | rlock
deriving DecidableEq, Repr

/-- environment of one `GetCold` call: whether the prefetch try-lock wins,
and whether each fallible step succeeds. -/
structure ColdIn where
  prefetch : Bool
  tryLockOk : Bool
  getObjOk : Bool
  mvOk : Bool
  persistOk : Bool
deriving DecidableEq, Repr

/-- observable outcome of `GetCold`: the returned `errstr` (`none` means
success), the final lock state, whether the deferred workfile removal ran,
and which steps completed. -/
structure ColdOut where
  result : Option String
  lock : LockState
  workfileRemoveAttempted : Bool
  renamed : Bool
  persisted : Bool
  recached : Bool
deriving DecidableEq, Repr

/-- `targetrunner.GetCold` (send.go 2037-2091), branch for branch: prefetch
try-locks and returns "skip" when contended; otherwise the exclusive lock
is taken.  A cloud `getobj` failure unlocks and returns before the deferred
cleanup is installed - the workfile is not removed there.  After that
point any failure (rename, persist) triggers the deferred unlock plus
workfile removal.  On success: `ReCache`, then prefetch unlocks while a
regular cold GET downgrades the lock to a read lock. -/
def GetCold (i : ColdIn) : ColdOut :=
  if i.prefetch && !i.tryLockOk then
    ⟨some "skip", LockState.unlocked, false, false, false, false⟩
  else if !i.getObjOk then
    ⟨some "GET failed", LockState.unlocked, false, false, false, false⟩
  else if !i.mvOk then
    ⟨some "rename failed", LockState.unlocked, true, false, false, false⟩
  else if !i.persistOk then
    ⟨some "persist failed", LockState.unlocked, true, true, false, false⟩
  else if i.prefetch then
    ⟨none, LockState.unlocked, false, true, true, true⟩
  else
    ⟨none, LockState.rlock, false, true, true, true⟩

/-- outcome of `os.Remove` in `objDelete`. -/
inductive RemoveResult where
  | removed
  | notExist
  | otherErr
deriving DecidableEq, Repr

/-- environment of one `objDelete` call. -/
structure DelIn where
  bckIsLocal : Bool
  evict : Bool
  loadOk : Bool
  objExists : Bool
  cloudDelOk : Bool
  removeRes : RemoveResult
deriving DecidableEq, Repr

/-- errors `objDelete` can return. -/
inductive DelErr where
  | loadErr
  | cloudErr
  | removeErr
deriving DecidableEq, Repr

/-- `targetrunner.objDelete` (send.go 2217-2263): delete from the cloud
when the bucket is not ais and `evict` is false; delete locally when the
LOM exists.  A non-NotExist `os.Remove` failure is returned immediately; a
NotExist failure is kept in `errRet` and returned only when there is no
cloud error; a cloud error takes precedence at the end. -/
def objDelete (i : DelIn) : Option DelErr :=
  let delFromCloud := !i.bckIsLocal && !i.evict
  if !i.loadOk then some DelErr.loadErr
  else
    let delFromAIS := i.objExists
    let cloudErr : Option DelErr :=
      if delFromCloud && !i.cloudDelOk then some DelErr.cloudErr else none
    if delFromAIS then
      match i.removeRes with
      | RemoveResult.otherErr => some DelErr.removeErr
      | RemoveResult.notExist =>
        if cloudErr.isSome then some DelErr.cloudErr else some DelErr.removeErr
      | RemoveResult.removed =>
        if cloudErr.isSome then some DelErr.cloudErr else none
    else if cloudErr.isSome then some DelErr.cloudErr
    else none

/-- Smap knowing one proxy, "p1". -/
def smap0 : Smap := ⟨["p1"]⟩

/-- request with an empty proxy-id query parameter and all other gates
passing. -/
def req0 : ObjReq := { proxyID := "" }

/-- non-prefetch cold GET whose cloud download fails. -/
def coldFail : ColdIn :=
  { prefetch := false, tryLockOk := true, getObjOk := false,
    mvOk := true, persistOk := true }

end Target

namespace MPath

/-- the local GFN flag (send.go 846-848). -/
structure LocalGFN where
  lookup : Bool
deriving DecidableEq, Repr

/-- Modelled from the spec: `localGFN.Activate` as called by
ais/fspathrgrp.go is not under src/ (the older target code under src/ has
only a void `activate`).  Per the spec the local GFN flag is a monotonic
boolean between activate and deactivate, and per its use in fspathrgrp.go
(`gfnActive := g.t.gfn.local.Activate()`) `Activate` sets the flag and
reports whether it was already active beforehand. -/
def LocalGFN.Activate (g : LocalGFN) : Bool × LocalGFN := (g.lookup, ⟨true⟩)

/-- Modelled from the spec: `localGFN.Deactivate` clears the flag. -/
def LocalGFN.Deactivate (_ : LocalGFN) : LocalGFN := ⟨false⟩

/-- result of the fs-registry change (`fs.Enable`/`Disable`/`Add`/`Remove`):
the change took effect, was a no-op, or failed. -/
inductive FsOpResult where
  | ok
  | noop
  | err
deriving DecidableEq, Repr

/-- observable outcome of a mountpath operation: final local-GFN state, the
flag value while the registry change ran, and whether the mountpath event
(resilver etc.) fired. -/
structure MpathOut where
  gfn : LocalGFN
  gfnDuringOp : Bool
  eventFired : Bool
deriving DecidableEq, Repr

/-- `fsprungroup.enableMountpath` (fspathrgrp.go 56-67): activate the local
GFN flag, run `fs.Enable`; when the change fails or is a no-op, deactivate
only if the flag was not already active; on success fire the event. -/
def enableMountpath (gfn : LocalGFN) (res : FsOpResult) : MpathOut :=
  let p := gfn.Activate
  match res with
  | FsOpResult.ok => ⟨p.2, p.2.lookup, true⟩
  | _ => ⟨if !p.1 then p.2.Deactivate else p.2, p.2.lookup, false⟩

/-- `fsprungroup.disableMountpath` (fspathrgrp.go 71-82): same GFN skeleton
around `fs.Disable`. -/
def disableMountpath (gfn : LocalGFN) (res : FsOpResult) : MpathOut :=
  let p := gfn.Activate
  match res with
  | FsOpResult.ok => ⟨p.2, p.2.lookup, true⟩
  | _ => ⟨if !p.1 then p.2.Deactivate else p.2, p.2.lookup, false⟩

/-- `fsprungroup.addMountpath` (fspathrgrp.go 86-97): same GFN skeleton
around `fs.Add` (which reports only success or error). -/
def addMountpath (gfn : LocalGFN) (res : FsOpResult) : MpathOut :=
  let p := gfn.Activate
  match res with
  | FsOpResult.ok => ⟨p.2, p.2.lookup, true⟩
  | _ => ⟨if !p.1 then p.2.Deactivate else p.2, p.2.lookup, false⟩

/-- `fsprungroup.removeMountpath` (fspathrgrp.go 101-112): same GFN
skeleton around `fs.Remove`. -/
def removeMountpath (gfn : LocalGFN) (res : FsOpResult) : MpathOut :=
  let p := gfn.Activate
  match res with
  | FsOpResult.ok => ⟨p.2, p.2.lookup, true⟩
  | _ => ⟨if !p.1 then p.2.Deactivate else p.2, p.2.lookup, false⟩

end MPath

namespace Transport

/-- concrete object that transmits cleanly: size 1, reader yields 1 byte. -/
def oPlain : Obj :=
  { hdr := { objName := "a", objAttrs := { size := 1 } },
    reader := some (Reader.bytes [1]) }

/-- concrete object whose reader hits EOF before `obj_size`: size 2, reader
yields nothing. -/
def oTrunc : Obj :=
  { hdr := { objName := "b", objAttrs := { size := 2 } },
    reader := some (Reader.bytes []) }

/-- concrete header-only object: size 0, nil reader on enqueue. -/
def oHdrOnly : Obj :=
  { hdr := { objName := "c", objAttrs := { size := 0 } }, reader := none }

theorem sendDataLoop_not_ctrl (size : Nat) (cs : List Nat) (off : Nat) :
    (sendDataLoop size cs off).2 ≠ ObjOutcome.stuck ∧
    (sendDataLoop size cs off).2 ≠ ObjOutcome.lastEOF := by
  induction cs generalizing off with
  | nil => by_cases h : off < size <;> simp [sendDataLoop, h]
  | cons c rest ih => by_cases h : size ≤ off + c <;> simp [sendDataLoop, h, ih]

theorem sendDataLoop_short (cs : List Nat) (size off : Nat)
    (h : off + cs.sum < size) :
    sendDataLoop size cs off =
      (cs.map Frame.data,
       ObjOutcome.readErr (TErr.shortRead (off + cs.sum) size)) := by
  induction cs generalizing off with
  | nil =>
    have hlt : off < size := by simpa using h
    simp [sendDataLoop, hlt]
  | cons c rest ih =>
    have hsum : off + c + rest.sum < size := by
      simp only [List.sum_cons] at h; omega
    have hnle : ¬ size ≤ off + c := by omega
    have hrec := ih (off + c) hsum
    simp only [sendDataLoop, if_neg hnle, hrec, List.map_cons, List.sum_cons]
    congr 3
    omega

theorem recv_short (cs : List Nat) (k : Nat) (h : cs.sum < k) :
    recv (some k) (cs.map Frame.data) = RecvEnd.corrupt := by
  induction cs generalizing k with
  | nil => simp [recv]
  | cons c rest ih =>
    have hnle : ¬ k ≤ c := by simp only [List.sum_cons] at h; omega
    have hrest : rest.sum < k - c := by simp only [List.sum_cons] at h; omega
    simp [recv, hnle, ih (k - c) hrest]

/-- every delivered completion carries its object, in exactly SQ order. -/
theorem runQueue_deliveries (q : List Obj)
    (h : q.all (fun o => o.wfb && o.user) = true) :
    (runQueue q).deliveries.map Cmpl.obj = q := by
  induction q with
  | nil => simp [runQueue]
  | cons o rest ih =>
    simp only [List.all_cons, Bool.and_eq_true] at h
    obtain ⟨⟨hwf, huser⟩, hrest⟩ := h
    have hihr := ih hrest
    simp only [Obj.user, Bool.and_eq_true, Bool.not_eq_true'] at huser
    obtain ⟨hlast, _⟩ := huser
    by_cases hho : o.hdr.IsHeaderOnly = true
    · have hp : processObj o =
          ([Frame.header o.hdr],
           ObjOutcome.done (eoObjErr 0 o.hdr.objAttrs.size)) := by
        simp [processObj, hho, hlast]
      simp [runQueue, hp, hihr]
    · have hho' : o.hdr.IsHeaderOnly = false := by simpa using hho
      rcases hr : o.reader with _ | rd
      · simp [Obj.wfb, hho', hr] at hwf
      · cases rd with
        | nop => simp [Obj.wfb, hho', hr] at hwf
        | bytes cs =>
          rcases hsd : sendDataLoop o.hdr.objAttrs.size cs 0 with ⟨fs, outc⟩
          have hctrl := sendDataLoop_not_ctrl o.hdr.objAttrs.size cs 0
          rw [hsd] at hctrl
          have hp : processObj o = (Frame.header o.hdr :: fs, outc) := by
            simp [processObj, hho', hr, hsd]
          cases outc with
          | done e => simp [runQueue, hp, hihr]
          | readErr e => simp [runQueue, hp, Function.comp_def]
          | lastEOF => exact absurd rfl hctrl.2
          | stuck => exact absurd rfl hctrl.1

/-- in an execution where every object transmits without a read error, the
SCQ itself carries exactly the SQ sequence. -/
theorem runQueue_scq (q : List Obj)
    (h : q.all (fun o => o.wfb && o.user) = true)
    (hok : q.all Obj.sendOk = true) :
    (runQueue q).scq.map Cmpl.obj = q := by
  induction q with
  | nil => simp [runQueue]
  | cons o rest ih =>
    simp only [List.all_cons, Bool.and_eq_true] at h hok
    obtain ⟨⟨hwf, huser⟩, hrest⟩ := h
    obtain ⟨hoko, hokr⟩ := hok
    have hihr := ih hrest hokr
    simp only [Obj.user, Bool.and_eq_true, Bool.not_eq_true'] at huser
    obtain ⟨hlast, _⟩ := huser
    by_cases hho : o.hdr.IsHeaderOnly = true
    · have hp : processObj o =
          ([Frame.header o.hdr],
           ObjOutcome.done (eoObjErr 0 o.hdr.objAttrs.size)) := by
        simp [processObj, hho, hlast]
      simp [runQueue, hp, hihr]
    · have hho' : o.hdr.IsHeaderOnly = false := by simpa using hho
      rcases hr : o.reader with _ | rd
      · simp [Obj.wfb, hho', hr] at hwf
      · cases rd with
        | nop => simp [Obj.wfb, hho', hr] at hwf
        | bytes cs =>
          rcases hsd : sendDataLoop o.hdr.objAttrs.size cs 0 with ⟨fs, outc⟩
          have hctrl := sendDataLoop_not_ctrl o.hdr.objAttrs.size cs 0
          rw [hsd] at hctrl
          have hp : processObj o = (Frame.header o.hdr :: fs, outc) := by
            simp [processObj, hho', hr, hsd]
          cases outc with
          | done e => simp [runQueue, hp, hihr]
          | readErr e => simp [Obj.sendOk, hp] at hoko
          | lastEOF => exact absurd rfl hctrl.2
          | stuck => exact absurd rfl hctrl.1

/-- C1 (counterexample): the claim "the sequence of objects observed on the
SCQ (`cmplCh`) equals the sequence enqueued on SQ, for every execution" is
false at the execution in which the queue holds `[oPlain, oTrunc]` and
`oTrunc`'s reader hits EOF short of `obj_size`: the read error terminates
the session, the drained completions bypass `cmplCh`, and the SCQ carries
only `oPlain`. -/
theorem C1_scq_fifo_counterexample :
    ([oPlain, oTrunc].all (fun o => o.wfb && o.user)) = true ∧
    (runQueue [oPlain, oTrunc]).scq.map Cmpl.obj = [oPlain] ∧
    [oPlain] ≠ [oPlain, oTrunc] := by
  refine ⟨by decide, by decide, by decide⟩

/-- C1 (amended): for every stream execution over user objects, completions
are delivered (via `objDone`) in exactly the order the objects entered SQ;
and in every execution in which no send error terminates the session, the
SCQ itself observes exactly the SQ sequence. -/
theorem C1_fifo (q : List Obj)
    (h : q.all (fun o => o.wfb && o.user) = true) :
    (runQueue q).deliveries.map Cmpl.obj = q ∧
    (q.all Obj.sendOk = true → (runQueue q).scq.map Cmpl.obj = q) :=
  ⟨runQueue_deliveries q h, fun hok => runQueue_scq q h hok⟩

theorem C1_fifo_witness :
    ([oPlain, oTrunc].all (fun o => o.wfb && o.user) = true) ∧
    ((runQueue [oPlain, oTrunc]).deliveries.map Cmpl.obj = [oPlain, oTrunc] ∧
     ([oPlain, oTrunc].all Obj.sendOk = true →
      (runQueue [oPlain, oTrunc]).scq.map Cmpl.obj = [oPlain, oTrunc])) :=
  ⟨by decide, C1_fifo [oPlain, oTrunc] (by decide)⟩

/-- C2: every object passed to `Send` is delivered exactly one completion
(whether its transmission succeeded, failed partway, or was aborted by the
session error), and each `objDone` invocation honors the optional refcount,
invokes the per-object callback if set (else the per-stream callback if
set), and always closes the reader exactly once, after the callback. -/
theorem C2_one_completion (q : List Obj)
    (h : q.all (fun o => o.wfb && o.user) = true) :
    (∀ o : Obj, ((runQueue q).deliveries.map Cmpl.obj).count o = q.count o) ∧
    (∀ (scb : Bool) (x : Obj),
      (objDoneEvents scb x).getLast? = some Event.closeReader ∧
      (objDoneEvents scb x).count Event.closeReader = 1 ∧
      (objDoneEvents scb x).count Event.objCallback =
        (if rcAfterDec x = 0 ∧ x.hasCallback = true then 1 else 0) ∧
      (objDoneEvents scb x).count Event.streamCallback =
        (if rcAfterDec x = 0 ∧ x.hasCallback = false ∧ scb = true
         then 1 else 0)) := by
  constructor
  · intro o
    rw [runQueue_deliveries q h]
  · intro scb x
    rcases hprc : x.prc with _ | n
    · rcases hcb : x.hasCallback <;> rcases hscb : scb <;>
        simp [objDoneEvents, rcAfterDec, hprc, hcb]
    · by_cases h0 : n - 1 = 0 <;>
        rcases hcb : x.hasCallback <;> rcases hscb : scb <;>
          simp [objDoneEvents, rcAfterDec, hprc, hcb, h0]

theorem C2_one_completion_witness :
    ([oPlain].all (fun o => o.wfb && o.user) = true) ∧
    ((∀ o : Obj,
        ((runQueue [oPlain]).deliveries.map Cmpl.obj).count o =
          [oPlain].count o) ∧
     (∀ (scb : Bool) (x : Obj),
        (objDoneEvents scb x).getLast? = some Event.closeReader ∧
        (objDoneEvents scb x).count Event.closeReader = 1 ∧
        (objDoneEvents scb x).count Event.objCallback =
          (if rcAfterDec x = 0 ∧ x.hasCallback = true then 1 else 0) ∧
        (objDoneEvents scb x).count Event.streamCallback =
          (if rcAfterDec x = 0 ∧ x.hasCallback = false ∧ scb = true
           then 1 else 0))) :=
  ⟨by decide, C2_one_completion [oPlain] (by decide)⟩

/-- C6: when an object's reader hits EOF after delivering fewer bytes than
the header's `obj_size`, the send side fails the object with the
short-read error, no completion is posted to the SCQ, the wire session
ends with that object's frames, and the object's completion (and those of
all still-queued objects) is delivered with that error by the termination
drain. -/
theorem C6_short_read (o : Obj) (cs : List Nat) (rest : List Obj)
    (hho : o.hdr.IsHeaderOnly = false)
    (hr : o.reader = some (Reader.bytes cs))
    (hshort : cs.sum < o.hdr.objAttrs.size) :
    processObj o =
      (Frame.header o.hdr :: cs.map Frame.data,
       ObjOutcome.readErr (TErr.shortRead cs.sum o.hdr.objAttrs.size)) ∧
    (runQueue (o :: rest)).frames = Frame.header o.hdr :: cs.map Frame.data ∧
    (runQueue (o :: rest)).scq = [] ∧
    (runQueue (o :: rest)).deliveries =
      ⟨o, some (TErr.shortRead cs.sum o.hdr.objAttrs.size)⟩ ::
        rest.map
          (fun x => ⟨x, some (TErr.shortRead cs.sum o.hdr.objAttrs.size)⟩) ∧
    recv none (runQueue (o :: rest)).frames = RecvEnd.corrupt := by
  have hsd := sendDataLoop_short cs o.hdr.objAttrs.size 0 (by simpa using hshort)
  simp only [Nat.zero_add] at hsd
  have hp : processObj o =
      (Frame.header o.hdr :: cs.map Frame.data,
       ObjOutcome.readErr (TErr.shortRead cs.sum o.hdr.objAttrs.size)) := by
    simp [processObj, hho, hr, hsd]
  have hlast : o.hdr.IsLast = false := by
    simp only [Header.IsHeaderOnly, Bool.or_eq_false_iff] at hho
    exact hho.2
  have hsz : ¬ o.hdr.objAttrs.size = 0 := by
    simp only [Header.IsHeaderOnly, Bool.or_eq_false_iff, beq_eq_false_iff_ne] at hho
    exact hho.1
  refine ⟨hp, by simp [runQueue, hp], by simp [runQueue, hp],
    by simp [runQueue, hp], ?_⟩
  simp only [runQueue, hp]
  simp [recv, hlast, hsz, recv_short cs o.hdr.objAttrs.size hshort]

theorem C6_short_read_witness :
    (oTrunc.hdr.IsHeaderOnly = false ∧
     oTrunc.reader = some (Reader.bytes []) ∧
     List.sum [] < oTrunc.hdr.objAttrs.size) ∧
    (processObj oTrunc =
      (Frame.header oTrunc.hdr :: List.map Frame.data [],
       ObjOutcome.readErr
         (TErr.shortRead (List.sum []) oTrunc.hdr.objAttrs.size)) ∧
     (runQueue [oTrunc, oPlain]).frames =
       Frame.header oTrunc.hdr :: List.map Frame.data [] ∧
     (runQueue [oTrunc, oPlain]).scq = [] ∧
     (runQueue [oTrunc, oPlain]).deliveries =
       ⟨oTrunc,
        some (TErr.shortRead (List.sum []) oTrunc.hdr.objAttrs.size)⟩ ::
         [oPlain].map
           (fun x =>
             ⟨x, some (TErr.shortRead (List.sum [])
                         oTrunc.hdr.objAttrs.size)⟩) ∧
     recv none (runQueue [oTrunc, oPlain]).frames = RecvEnd.corrupt) :=
  ⟨⟨by decide, by decide, by decide⟩,
   C6_short_read oTrunc [] [oPlain] (by decide) (by decide) (by decide)⟩

/-- C7: a header-only object (`obj_size == 0`) enqueued via `Send` with a
nil reader has the reader replaced by the no-op reader; on the wire the
object contributes its header frame and no data frame; a completion with a
nil error is still posted to the SCQ and delivered; and `objDone` closes
the (no-op) reader. -/
theorem C7_header_only (o : Obj) (scb : Bool)
    (hsize : o.hdr.objAttrs.size = 0)
    (hr : o.reader = none) :
    Stream.Send false o = some { o with reader := some Reader.nop } ∧
    (runQueue [{ o with reader := some Reader.nop }]).frames =
      [Frame.header o.hdr] ∧
    (runQueue [{ o with reader := some Reader.nop }]).scq =
      [⟨{ o with reader := some Reader.nop }, none⟩] ∧
    (runQueue [{ o with reader := some Reader.nop }]).deliveries =
      [⟨{ o with reader := some Reader.nop }, none⟩] ∧
    (objDoneEvents scb { o with reader := some Reader.nop }).count
        Event.closeReader = 1 := by
  have hho : o.hdr.IsHeaderOnly = true := by
    simp [Header.IsHeaderOnly, hsize]
  have hlast : o.hdr.IsLast = false := by
    simp [Header.IsLast, hsize, lastMarker]
  have hp : processObj { o with reader := some Reader.nop } =
      ([Frame.header o.hdr], ObjOutcome.done none) := by
    simp [processObj, hho, hlast, eoObjErr, hsize]
  refine ⟨by simp [Stream.Send, hr], by simp [runQueue, hp],
    by simp [runQueue, hp], by simp [runQueue, hp], ?_⟩
  rcases hprc : o.prc with _ | n
  · rcases hcb : o.hasCallback <;> rcases hscb : scb <;>
      simp [objDoneEvents, hprc, hcb]
  · by_cases h0 : n - 1 = 0 <;>
      rcases hcb : o.hasCallback <;> rcases hscb : scb <;>
        simp [objDoneEvents, hprc, hcb, hscb, h0]

theorem C7_header_only_witness :
    (oHdrOnly.hdr.objAttrs.size = 0 ∧ oHdrOnly.reader = none) ∧
    (Stream.Send false oHdrOnly =
        some { oHdrOnly with reader := some Reader.nop } ∧
     (runQueue [{ oHdrOnly with reader := some Reader.nop }]).frames =
        [Frame.header oHdrOnly.hdr] ∧
     (runQueue [{ oHdrOnly with reader := some Reader.nop }]).scq =
        [⟨{ oHdrOnly with reader := some Reader.nop }, none⟩] ∧
     (runQueue [{ oHdrOnly with reader := some Reader.nop }]).deliveries =
        [⟨{ oHdrOnly with reader := some Reader.nop }, none⟩] ∧
     (objDoneEvents false
         { oHdrOnly with reader := some Reader.nop }).count
        Event.closeReader = 1) :=
  ⟨⟨by decide, by decide⟩,
   C7_header_only oHdrOnly false (by decide) (by decide)⟩

end Transport

namespace Transport

/-- C8 (counterexample): the claim reads the burst override from the
`STREAM_BURST_NUM` environment variable; the code reads
`AIS_STREAM_BURST_NUM` (send.go 245).  With `STREAM_BURST_NUM=64` set to a
parseable positive integer (and nothing else set), the claim demands
capacity 64, but `NewStream` sizes both queues at the default 32. -/
theorem C8_burst_counterexample :
    envPlain "STREAM_BURST_NUM" = "64" ∧
    goParseInt64 "64" = some 64 ∧ (0 : Int) < 64 ∧
    newStreamQueues envPlain = ⟨32, 32⟩ ∧ (32 : Int) ≠ 64 := by
  refine ⟨by decide, by decide, by decide, by decide, by decide⟩

/-- C8 (amended): for every stream created by `NewStream`, the capacity of
both SQ and SCQ equals the value of the `AIS_STREAM_BURST_NUM` environment
variable when it is set to a parseable integer (the code does not check it
for positivity), and equals the default 32 when the variable is unset or
unparseable. -/
theorem C8_burst (getenv : String → String) :
    (getenv "AIS_STREAM_BURST_NUM" = "" →
      newStreamQueues getenv = ⟨(burstNum : Int), (burstNum : Int)⟩) ∧
    (goParseInt64 (getenv "AIS_STREAM_BURST_NUM") = none →
      newStreamQueues getenv = ⟨(burstNum : Int), (burstNum : Int)⟩) ∧
    (∀ v : Int, getenv "AIS_STREAM_BURST_NUM" ≠ "" →
      goParseInt64 (getenv "AIS_STREAM_BURST_NUM") = some v →
      newStreamQueues getenv = ⟨v, v⟩) := by
  refine ⟨fun h => ?_, fun h => ?_, fun v hne h => ?_⟩
  · simp [newStreamQueues, streamBurst, h]
  · by_cases he : getenv "AIS_STREAM_BURST_NUM" = "" <;>
      simp [newStreamQueues, streamBurst, he, h]
  · simp [newStreamQueues, streamBurst, hne, h]

theorem C8_burst_witness :
    (envAis "AIS_STREAM_BURST_NUM" ≠ "" ∧
     goParseInt64 (envAis "AIS_STREAM_BURST_NUM") = some 64) ∧
    newStreamQueues envAis = ⟨64, 64⟩ :=
  ⟨⟨by decide, by decide⟩,
   (C8_burst envAis).2.2 64 (by decide) (by decide)⟩

end Transport

namespace Target

/-- C3 (counterexample): the claim says every object operation (GET, PUT,
DELETE, HEAD) without a proxy-id query parameter is rejected with
BadRequest and its body not executed.  On the code, a GET request with an
empty proxy-id and all other gates passing runs its operation body:
`httpobjget` (send.go 1294-1341) never calls `verifyProxyRedirection`. -/
theorem C3_redirect_counterexample :
    req0.proxyID = "" ∧
    httpobjget smap0 req0 = Resp.executed true ∧
    Resp.executed true ≠ Resp.redirectReject := by
  refine ⟨by decide, by decide, by decide⟩

/-- C3 (amended): only the PUT object handler verifies proxy redirection:
`httpobjput` rejects with the "expected to be redirected" BadRequest (and
does not execute the operation body) whenever the proxy-id parameter is
missing or names a gateway unknown to the Smap, while GET, DELETE and HEAD
execute their operation bodies regardless of the proxy-id parameter. -/
theorem C3_redirect (smap : Smap) (r : ObjReq) :
    (verifyProxyRedirection smap "" = false) ∧
    (r.restOk = true → verifyProxyRedirection smap r.proxyID = false →
      httpobjput smap r = Resp.redirectReject) ∧
    (r.restOk = true → r.rangeOk = true → r.lomInitOk = true →
      r.allowOk = true → httpobjget smap r = Resp.executed r.bodyOk) ∧
    (r.restOk = true → r.msgOk = true → r.lomInitOk = true →
      r.allowOk = true → httpobjdelete smap r = Resp.executed r.bodyOk) ∧
    (r.restOk = true → r.lomInitOk = true →
      httpobjhead smap r = Resp.executed r.bodyOk) := by
  refine ⟨by simp [verifyProxyRedirection], fun h1 h2 => ?_,
    fun h1 h2 h3 h4 => ?_, fun h1 h2 h3 h4 => ?_, fun h1 h2 => ?_⟩
  · simp [httpobjput, h1, h2]
  · simp [httpobjget, h1, h2, h3, h4]
  · simp [httpobjdelete, h1, h2, h3, h4]
  · simp [httpobjhead, h1, h2]

theorem C3_redirect_witness :
    (req0.restOk = true ∧ verifyProxyRedirection smap0 req0.proxyID = false ∧
     req0.rangeOk = true ∧ req0.msgOk = true ∧ req0.lomInitOk = true ∧
     req0.allowOk = true) ∧
    (httpobjput smap0 req0 = Resp.redirectReject ∧
     httpobjget smap0 req0 = Resp.executed req0.bodyOk ∧
     httpobjdelete smap0 req0 = Resp.executed req0.bodyOk ∧
     httpobjhead smap0 req0 = Resp.executed req0.bodyOk) :=
  ⟨⟨by decide, by decide, by decide, by decide, by decide, by decide⟩,
   ⟨(C3_redirect smap0 req0).2.1 (by decide) (by decide),
    (C3_redirect smap0 req0).2.2.1 (by decide) (by decide) (by decide)
      (by decide),
    (C3_redirect smap0 req0).2.2.2.1 (by decide) (by decide) (by decide)
      (by decide),
    (C3_redirect smap0 req0).2.2.2.2 (by decide) (by decide)⟩⟩

/-- C4: after the global GFN flag is activated at time `t`, `active()`
reports true while `now <= t + 30s` (the default post-join deadline) and,
once `now > t + deadline`, reports false and clears the flag - no explicit
deactivate call is needed. -/
theorem C4_gfn_deadline (t now : Int) :
    (now ≤ t + getFromNeighAfterJoin →
      ((GlobalGFN.activate t).active now).1 = true) ∧
    (t + getFromNeighAfterJoin < now →
      ((GlobalGFN.activate t).active now).1 = false ∧
      ((GlobalGFN.activate t).active now).2.lookup = false) := by
  constructor
  · intro h
    simp [GlobalGFN.activate, GlobalGFN.active, not_lt.mpr h]
  · intro h
    simp [GlobalGFN.activate, GlobalGFN.active, GlobalGFN.deactivate, h]

theorem C4_gfn_deadline_witness :
    ((0 : Int) ≤ 0 + getFromNeighAfterJoin ∧
     ((GlobalGFN.activate 0).active 0).1 = true) ∧
    (0 + getFromNeighAfterJoin < 100000000000 ∧
     ((GlobalGFN.activate 0).active 100000000000).1 = false ∧
     ((GlobalGFN.activate 0).active 100000000000).2.lookup = false) :=
  ⟨⟨by decide, (C4_gfn_deadline 0 0).1 (by decide)⟩,
   ⟨by decide, (C4_gfn_deadline 0 100000000000).2 (by decide)⟩⟩

/-- C5 (counterexample): the claim says that on any failure of a
non-prefetch cold GET the workfile is removed and the exclusive lock
released.  When the cloud download itself fails, `GetCold` (send.go
2051-2055) unlocks and returns before the deferred cleanup is installed:
the call fails, the lock is released, but no workfile removal happens. -/
theorem C5_cold_counterexample :
    (coldFail.prefetch = false ∧ (GetCold coldFail).result.isSome = true) ∧
    (GetCold coldFail).lock = LockState.unlocked ∧
    (GetCold coldFail).workfileRemoveAttempted = false := by
  refine ⟨⟨by decide, by decide⟩, by decide, by decide⟩

/-- C5 (amended): for a non-prefetch cold GET, success renames the
workfile over the final path, persists the LOM and downgrades (does not
release) the exclusive lock; a failure of the rename or of the LOM persist
removes the workfile and releases the lock; a failure of the cloud
download itself releases the lock without attempting any workfile removal.
For a prefetch call the lock is try-locked and the call returns "skip"
having done nothing when the lock is contended. -/
theorem C5_cold_get (i : ColdIn) :
    (i.prefetch = true → i.tryLockOk = false →
      GetCold i =
        ⟨some "skip", LockState.unlocked, false, false, false, false⟩) ∧
    (i.prefetch = false → i.getObjOk = true → i.mvOk = true →
      i.persistOk = true →
      GetCold i = ⟨none, LockState.rlock, false, true, true, true⟩) ∧
    (i.getObjOk = false → (i.prefetch = false ∨ i.tryLockOk = true) →
      GetCold i =
        ⟨some "GET failed", LockState.unlocked, false, false, false, false⟩) ∧
    (i.getObjOk = true → i.mvOk = false →
      (i.prefetch = false ∨ i.tryLockOk = true) →
      GetCold i =
        ⟨some "rename failed", LockState.unlocked, true, false, false,
         false⟩) ∧
    (i.getObjOk = true → i.mvOk = true → i.persistOk = false →
      (i.prefetch = false ∨ i.tryLockOk = true) →
      GetCold i =
        ⟨some "persist failed", LockState.unlocked, true, true, false,
         false⟩) := by
  obtain ⟨p, tl, go, mv, pe⟩ := i
  cases p <;> cases tl <;> cases go <;> cases mv <;> cases pe <;>
    refine ⟨?_, ?_, ?_, ?_, ?_⟩ <;> decide

theorem C5_cold_get_witness :
    GetCold ⟨false, true, true, true, true⟩ =
      ⟨none, LockState.rlock, false, true, true, true⟩ :=
  (C5_cold_get ⟨false, true, true, true, true⟩).2.1 rfl rfl rfl rfl

/-- C10: deleting an object of an ais bucket that does not exist locally
(no cloud involvement: `delFromCloud` is false for an ais bucket) returns
nil - `objDelete` succeeds silently rather than failing with NotFound. -/
theorem C10_delete_absent (i : DelIn)
    (hl : i.bckIsLocal = true) (hload : i.loadOk = true)
    (hex : i.objExists = false) :
    objDelete i = none := by
  obtain ⟨b, e, lo, ex, c, rr⟩ := i
  simp only at hl hload hex
  subst hl hload hex
  cases e <;> cases c <;> cases rr <;> decide

theorem C10_delete_absent_witness :
    objDelete
        { bckIsLocal := true, evict := false, loadOk := true,
          objExists := false, cloudDelOk := true,
          removeRes := RemoveResult.removed } = none :=
  C10_delete_absent _ rfl rfl rfl

end Target

namespace MPath

/-- C9: every mountpath operation first activates the local GFN flag (the
flag is active while the fs-registry change runs); when the change fails
or is a no-op the flag is deactivated only if it was not already active
beforehand, so a failed operation leaves the flag with the value it had
before the call, while a successful operation leaves it active. -/
theorem C9_mpath_gfn (g : LocalGFN) (r : FsOpResult) :
    ((enableMountpath g r).gfnDuringOp = true ∧
     (r ≠ FsOpResult.ok → (enableMountpath g r).gfn.lookup = g.lookup) ∧
     (r = FsOpResult.ok → (enableMountpath g r).gfn.lookup = true)) ∧
    ((disableMountpath g r).gfnDuringOp = true ∧
     (r ≠ FsOpResult.ok → (disableMountpath g r).gfn.lookup = g.lookup) ∧
     (r = FsOpResult.ok → (disableMountpath g r).gfn.lookup = true)) ∧
    ((addMountpath g r).gfnDuringOp = true ∧
     (r ≠ FsOpResult.ok → (addMountpath g r).gfn.lookup = g.lookup) ∧
     (r = FsOpResult.ok → (addMountpath g r).gfn.lookup = true)) ∧
    ((removeMountpath g r).gfnDuringOp = true ∧
     (r ≠ FsOpResult.ok → (removeMountpath g r).gfn.lookup = g.lookup) ∧
     (r = FsOpResult.ok → (removeMountpath g r).gfn.lookup = true)) := by
  obtain ⟨b⟩ := g
  cases b <;> cases r <;> decide

theorem C9_mpath_gfn_witness :
    (FsOpResult.err ≠ FsOpResult.ok) ∧
    ((enableMountpath ⟨false⟩ FsOpResult.err).gfn.lookup =
      LocalGFN.lookup ⟨false⟩) ∧
    ((removeMountpath ⟨true⟩ FsOpResult.err).gfn.lookup =
      LocalGFN.lookup ⟨true⟩) :=
  ⟨by decide,
   (C9_mpath_gfn ⟨false⟩ FsOpResult.err).1.2.1 (by decide),
   (C9_mpath_gfn ⟨true⟩ FsOpResult.err).2.2.2.2.1 (by decide)⟩

end MPath
